import Mathlib

/-
Shallow embedding of the task-dispatch and rental-lifecycle subsystem of the
proxy-rental repository (app/database/models.py, app/database/requests/tasks.py,
app/database/requests/task_handler.py, app/database/requests/save_data.py,
app/database/requests/get_data.py, app/database/requests/triggers.py).

Conventions of the embedding:
  - database tables are lists of rows; primary keys are Nat;
  - timestamps are Int;
  - a nullable SQL column is an Option;
  - a `status_id` foreign key is modelled as `Option Nat` so that the value an
    UPDATE statement carries (which can be NULL, see update_port_status) is
    representable;
  - a transaction that can raise is an `Except` value; an error carries the
    database as it stands at the moment the exception is raised, so that
    writes already committed by nested sessions survive the exception.
-/

deriving instance DecidableEq for Except

namespace DiplomLR

/-- Task statuses, from models.TaskStatusEnum. -/
inductive TaskStatusEnum where
  | pending
  | processing
  | done
  | error
deriving DecidableEq, Repr

/-- Row of the proxy_servers table (models.ProxyServer). -/
structure ProxyServer where
  id : Nat
  ip : String
deriving DecidableEq, Repr

/-- Row of the proxies table (models.Proxy). -/
structure Proxy where
  id : Nat
  server_id : Nat
  internal_ip : Option String
  status_id : Option Nat
  proxy_type_id : Nat
deriving DecidableEq, Repr

/-- Row of the proxy_types table (models.ProxyType). -/
structure ProxyType where
  id : Nat
  operator_id : Nat
  protocol_id : Nat
  speed : Nat
deriving DecidableEq, Repr

/-- Row of the protocols table (models.Protocol). -/
structure Protocol where
  id : Nat
  value : String
deriving DecidableEq, Repr

/-- Row of the operators table (models.Operator). -/
structure Operator where
  id : Nat
  name : String
  country_code : String
deriving DecidableEq, Repr

/-- Row of the proxy_ports table (models.ProxyPorts). -/
structure ProxyPorts where
  id : Nat
  server_id : Nat
  port : Nat
  status_id : Option Nat
deriving DecidableEq, Repr

/-- Row of the proxy_rentals table (models.ProxyRental). -/
structure ProxyRental where
  id : Nat
  user_id : Nat
  proxy_id : Nat
  purchase_date : Int
  expire_date : Int
  port_id : Nat
  login : String
  password : String
deriving DecidableEq, Repr

/-- The JSON payload built by task_handler.add_task_to_queue. -/
structure TaskPayload where
  ip : String
  internal_ip : Option String
  port : Nat
  login : String
  password : String
  protocol : String
  operator : String
deriving DecidableEq, Repr

/-- Row of the proxy_task_queue table (models.ProxyTaskQueue). -/
structure ProxyTaskQueue where
  id : Nat
  task_type : String
  server_ip : String
  payload : TaskPayload
  status : TaskStatusEnum
  created_at : Int
  updated_at : Option Int
  error_message : Option String
deriving DecidableEq, Repr

/-- The database state: one list per table, plus the autoincrement counter of
the proxy_task_queue primary key. -/
structure DB where
  servers : List ProxyServer
  proxies : List Proxy
  proxy_types : List ProxyType
  protocols : List Protocol
  operators : List Operator
  ports : List ProxyPorts
  rentals : List ProxyRental
  tasks : List ProxyTaskQueue
  next_task_id : Nat
deriving DecidableEq, Repr

/-- The (name, id) pairs of save_data.ProxyStatus, in enum declaration order:
ACTIVE = ("Available", 1), RENTED = ("Rented", 2), UNAVAILABLE = ("Unavailable", 3). -/
def ProxyStatus : List (String × Nat) :=
  [("Available", 1), ("Rented", 2), ("Unavailable", 3)]

/-- Embedding of Python str.lower as used on the ASCII status names:
lower-cases each character. -/
def py_lower (s : String) : String :=
  String.mk (s.data.map Char.toLower)

/-- ProxyStatus.get_status_id from save_data.py: iterates the enum members and
returns the id of the first whose name matches case-insensitively, else None. -/
def get_status_id (status_name : String) : Option Nat :=
  (ProxyStatus.find? (fun v => py_lower v.1 == py_lower status_name)).map (fun v => v.2)

/-- save_data.update_proxy_status: resolves the status name to an id; returns
None (and performs no write) when the name is unknown; otherwise runs
UPDATE proxies SET status_id WHERE id = proxy_id in its own session, commits,
and returns whether rowcount was positive. The pair is (database after the
call, Python return value). -/
def update_proxy_status (db : DB) (proxy_id : Nat) (status : String) : DB × Option Bool :=
  match get_status_id status with
  | none => (db, none)
  | some sid =>
    let upd := fun (p : Proxy) =>
      if p.id == proxy_id then { p with status_id := some sid } else p
    ({ db with proxies := db.proxies.map upd },
     some (decide (0 < (db.proxies.filter (fun p => p.id == proxy_id)).length)))

/-- save_data.update_port_status: resolves the status name to an id but, unlike
update_proxy_status, does not guard the None case; it runs
UPDATE proxy_ports SET status_id WHERE id = port_id with whatever the
resolution produced (NULL included), commits in its own session, and returns
whether rowcount was positive. -/
def update_port_status (db : DB) (port_id : Nat) (status : String) : DB × Option Bool :=
  let status_id := get_status_id status
  let upd := fun (p : ProxyPorts) =>
    if p.id == port_id then { p with status_id := status_id } else p
  ({ db with ports := db.ports.map upd },
   some (decide (0 < (db.ports.filter (fun p => p.id == port_id)).length)))

/-- The row produced by the SELECT ... JOIN used both by
task_handler.add_task_to_queue and by the reclamation loop in tasks.py. -/
structure TaskJoinRow where
  server_ip : String
  internal_ip : Option String
  port : Nat
  protocol : String
  operator : String
deriving DecidableEq, Repr

/-- The join query of task_handler.add_task_to_queue (and, identically, of
tasks.clean_expired_proxy_rentals): starting from the proxy row with the given
id, joins its server, its proxy type, that type's protocol and operator, and
the port row with the given id; result.first() of the select, None when some
join partner is missing. Primary keys are unique, so find? is the first (and
only) matching row. -/
def resolveTaskData (db : DB) (proxy_id port_id : Nat) : Option TaskJoinRow := do
  let proxy ← db.proxies.find? (fun p => p.id == proxy_id)
  let server ← db.servers.find? (fun s => s.id == proxy.server_id)
  let ptype ← db.proxy_types.find? (fun t => t.id == proxy.proxy_type_id)
  let protocol ← db.protocols.find? (fun pr => pr.id == ptype.protocol_id)
  let operator ← db.operators.find? (fun o => o.id == ptype.operator_id)
  let port ← db.ports.find? (fun pp => pp.id == port_id)
  pure { server_ip := server.ip, internal_ip := proxy.internal_ip,
         port := port.port, protocol := protocol.value, operator := operator.name }

/-- task_handler.add_task_to_queue: resolves the join data; raises
ValueError("Could not find data for the task") when the select yields no row
(so nothing is inserted); otherwise inserts a proxy_task_queue row (status
defaults to pending, created_at to now(), updated_at and error_message to
NULL), commits, and returns the new task id. An error result carries no
database: the session ends without having committed anything. -/
def add_task_to_queue (db : DB) (proxy_id port_id : Nat) (login password : String)
    (task_type : String) (now : Int) : Except String (DB × Nat) :=
  match resolveTaskData db proxy_id port_id with
  | none => .error "Could not find data for the task"
  | some data =>
    let task : ProxyTaskQueue :=
      { id := db.next_task_id
        task_type := task_type
        server_ip := data.server_ip
        payload :=
          { ip := data.server_ip
            internal_ip := data.internal_ip
            port := data.port
            login := login
            password := password
            protocol := data.protocol
            operator := data.operator }
        status := .pending
        created_at := now
        updated_at := none
        error_message := none }
    .ok ({ db with tasks := db.tasks ++ [task], next_task_id := db.next_task_id + 1 },
         db.next_task_id)

/-- get_data.get_task_status: SELECT status FROM proxy_task_queue WHERE id =
task_id, scalar_one_or_none — the status of the task, or None when no task
with that id exists. -/
def get_task_status (db : DB) (task_id : Nat) : Option TaskStatusEnum :=
  (db.tasks.find? (fun t => t.id == task_id)).map (fun t => t.status)

/-- Number of iterations of the while loop of
task_handler.wait_for_task_completion: waited starts at 0 and grows by
interval each iteration, so for positive interval the loop body runs for
waited = 0, interval, 2*interval, ..., that is ceil(timeout / interval)
times. -/
def numPolls (timeout interval : Nat) : Nat :=
  (timeout + interval - 1) / interval

/-- Body of the polling loop of task_handler.wait_for_task_completion, with
the statuses the successive polls observe given by f (poll k observes f k):
return True on done, False on error, keep polling otherwise; False once the
permitted polls are exhausted. -/
def runPolls (f : Nat → Option TaskStatusEnum) (k : Nat) : Nat → Bool
  | 0 => false
  | n + 1 =>
    match f k with
    | some .done => true
    | some .error => false
    | _ => runPolls f (k + 1) n

/-- task_handler.wait_for_task_completion over the poll trace f: polls
get_task_status while waited < timeout, returning True on done, False on
error, and False when the timeout elapses. -/
def wait_for_task_completion (f : Nat → Option TaskStatusEnum)
    (timeout interval : Nat) : Bool :=
  runPolls f 0 (numPolls timeout interval)

/-- task_handler.delete_tasks_by_status: counts the tasks in the given status;
returns (0, 0) without deleting when none match; otherwise issues
DELETE FROM proxy_task_queue WHERE status = s, commits, and returns the
count together with the rowcount of the delete. -/
def delete_tasks_by_status (db : DB) (status : TaskStatusEnum) : DB × (Nat × Nat) :=
  let total_count := (db.tasks.filter (fun t => t.status == status)).length
  if total_count = 0 then (db, (0, 0))
  else
    ({ db with tasks := db.tasks.filter (fun t => !(t.status == status)) },
     (total_count, (db.tasks.filter (fun t => t.status == status)).length))

/-- The BEFORE UPDATE trigger function update_proxy_task_updated_at installed
by triggers.create_proxy_task_queue_update_trigger: given the OLD row, the NEW
row and now(), it sets NEW.updated_at = now() exactly when NEW.status is
distinct from OLD.status and NEW.status is done or error; otherwise NEW passes
through unchanged. -/
def update_proxy_task_updated_at (old new : ProxyTaskQueue) (now : Int) : ProxyTaskQueue :=
  if new.status ≠ old.status ∧ (new.status = .done ∨ new.status = .error) then
    { new with updated_at := some now }
  else new

/-- A status update issued by the external worker on one task row, as it goes
through the BEFORE UPDATE trigger: the UPDATE statement itself sets only the
status column. -/
def applyStatusUpdate (t : ProxyTaskQueue) (new_status : TaskStatusEnum)
    (now : Int) : ProxyTaskQueue :=
  update_proxy_task_updated_at t { t with status := new_status } now

/-- A task row after a sequence of worker status updates, each a pair of the
new status and the clock value at that update. -/
def evolve (t : ProxyTaskQueue) (trace : List (TaskStatusEnum × Int)) : ProxyTaskQueue :=
  trace.foldl (fun row u => applyStatusUpdate row u.1 u.2) t

/-- One worker transition obeys the task state machine discipline that a task
is never mutated back out of a terminal status: from done or error, the next
status equals the current one. -/
def noExitTerminal (cur next : TaskStatusEnum) : Bool :=
  !(cur == .done || cur == .error) || next == cur

/-- A trace of worker status updates is valid from the given current status
when every transition obeys noExitTerminal. -/
def validTrace (cur : TaskStatusEnum) : List (TaskStatusEnum × Int) → Bool
  | [] => true
  | (s, _) :: rest => noExitTerminal cur s && validTrace s rest

/-- DELETE of one rental row by primary key (session.delete(rental) in
tasks.py). -/
def deleteRental (db : DB) (rental_id : Nat) : DB :=
  { db with rentals := db.rentals.filter (fun r => !(r.id == rental_id)) }

/-- The cleanup step of the reclamation loop for one rental, exactly as the
code performs it: update_proxy_status(proxy_id, "Available"), then
update_port_status(port_id, "Available"), then delete the rental row. -/
def cleanupRental (db : DB) (rental : ProxyRental) : DB :=
  deleteRental
    ((update_port_status
        ((update_proxy_status db rental.proxy_id "Available").1)
        rental.port_id "Available").1)
    rental.id

/-- The commit units the cleanup block of tasks.py actually produces:
update_proxy_status and update_port_status each open their own session and
commit independently inside save_data.py, while only session.delete(rental)
belongs to the transaction opened by the surrounding session.begin() in
tasks.py, so the block commits three times, not once. -/
def cleanupCommits (rental : ProxyRental) : List (DB → DB) :=
  [fun db => (update_proxy_status db rental.proxy_id "Available").1,
   fun db => (update_port_status db rental.port_id "Available").1,
   fun db => deleteRental db rental.id]

/-- The database state reached when execution stops (for example, the process
dies) after the first k of the given commit units have committed. -/
def runCommits (db : DB) (commits : List (DB → DB)) (k : Nat) : DB :=
  (commits.take k).foldl (fun d c => c d) db

/-- Exceptions of the per-rental handler of the reclamation loop. -/
inductive Exn where
  | dbError : String → Exn
  | valueError : String → Exn
deriving DecidableEq, Repr

/-- Injected failures for one pass of the per-rental handler, modelling the
points at which the real code can raise, plus the statuses that the polls of
wait_for_task_completion observe (poll k observes polls k; in the running
system the worker mutates the task concurrently, which is outside the model).
update_proxy_status and update_port_status catch SQLAlchemyError internally
and return False instead of raising, so the cleanup transactions can only
raise at their delete/commit. -/
structure FailureEnv where
  select_fails : Bool
  enqueue_fails : Bool
  wait_fails : Bool
  polls : Nat → Option TaskStatusEnum
  cleanup_fails : Bool
  forced_cleanup_fails : Bool

/-- The try block of the per-rental handler in
tasks.clean_expired_proxy_rentals: resolve the join data (a missing row logs a
warning and skips the rental, leaving the database untouched); enqueue a
remove_proxy task; wait up to 5 seconds for it (the result only selects a log
message); then run the cleanup block. An error carries the database at the
moment of the raise: in particular a failing cleanup transaction has already
let the two status updates commit in their own sessions. -/
def processRentalTry (env : FailureEnv) (db : DB) (rental : ProxyRental)
    (now : Int) : Except (Exn × DB) DB :=
  if env.select_fails then .error (.dbError "select failed", db)
  else
    match resolveTaskData db rental.proxy_id rental.port_id with
    | none => .ok db
    | some _ =>
      if env.enqueue_fails then .error (.dbError "enqueue failed", db)
      else
        match add_task_to_queue db rental.proxy_id rental.port_id
            rental.login rental.password "remove_proxy" now with
        | .error m => .error (.valueError m, db)
        | .ok (db1, _task_id) =>
          if env.wait_fails then .error (.dbError "status poll failed", db1)
          else
            let _success := wait_for_task_completion env.polls 5 2
            if env.cleanup_fails then
              .error (.dbError "cleanup transaction failed",
                (update_port_status
                  ((update_proxy_status db1 rental.proxy_id "Available").1)
                  rental.port_id "Available").1)
            else .ok (cleanupRental db1 rental)

/-- The inner try of the except branch: the best-effort forced cleanup. The
two status updates commit in their own sessions before the delete; a failure
is raised at the delete/commit of the outer transaction. -/
def forcedCleanup (env : FailureEnv) (db : DB) (rental : ProxyRental) :
    Except (Exn × DB) DB :=
  if env.forced_cleanup_fails then
    .error (.dbError "secondary cleanup failed",
      (update_port_status
        ((update_proxy_status db rental.proxy_id "Available").1)
        rental.port_id "Available").1)
  else .ok (cleanupRental db rental)

/-- The whole per-rental handler of tasks.clean_expired_proxy_rentals: the try
block, and on any exception the except branch, which attempts the forced
cleanup inside a nested try whose own failure is only logged. Both catches are
total, so the handler itself returns ok in every case. -/
def processRentalE (env : FailureEnv) (db : DB) (rental : ProxyRental)
    (now : Int) : Except (Exn × DB) DB :=
  match processRentalTry env db rental now with
  | .ok db1 => .ok db1
  | .error (_, db1) =>
    match forcedCleanup env db1 rental with
    | .ok db2 => .ok db2
    | .error (_, db2) => .ok db2

/-- The for loop over the snapshot of expired rentals: sequential, and an
exception escaping one handler would abort the remaining rentals (we prove it
never does). -/
def runCycle (env : Nat → FailureEnv) (now : Int) : DB → List ProxyRental →
    Except (Exn × DB) DB
  | db, [] => .ok db
  | db, r :: rest =>
    match processRentalE (env r.id) db r now with
    | .ok db1 => runCycle env now db1 rest
    | .error e => .error e

/-- One cycle of tasks.clean_expired_proxy_rentals: snapshot the rentals with
expire_date <= now(), then process each in turn. The failure environment is
indexed by rental id. -/
def clean_expired_proxy_rentals_cycle (env : Nat → FailureEnv) (db : DB)
    (now : Int) : Except (Exn × DB) DB :=
  runCycle env now db (db.rentals.filter (fun r => decide (r.expire_date ≤ now)))

/-- A concrete rental used by the witnesses: user 1 rents proxy 1 on port 1,
expiring at time 1. -/
def sampleRental : ProxyRental :=
  { id := 1, user_id := 1, proxy_id := 1, purchase_date := 0, expire_date := 1,
    port_id := 1, login := "abc", password := "xyz" }

/-- A concrete freshly inserted task row, as add_task_to_queue creates it. -/
def sampleTask : ProxyTaskQueue :=
  { id := 1, task_type := "add_proxy", server_ip := "1.2.3.4",
    payload := { ip := "1.2.3.4", internal_ip := some "10.0.0.1",
                 port := 8080, login := "abc", password := "xyz",
                 protocol := "SOCKS5", operator := "TESTCO" },
    status := .pending, created_at := 0, updated_at := none,
    error_message := none }

/-- A concrete database with full join data for proxy 1 / port 1, one expired
rental and one pending task. Proxy and port are in status Rented (id 2). -/
def sampleDB : DB :=
  { servers := [{ id := 1, ip := "1.2.3.4" }]
    proxies := [{ id := 1, server_id := 1, internal_ip := some "10.0.0.1",
                  status_id := some 2, proxy_type_id := 1 }]
    proxy_types := [{ id := 1, operator_id := 1, protocol_id := 1, speed := 30 }]
    protocols := [{ id := 1, value := "SOCKS5" }]
    operators := [{ id := 1, name := "TESTCO", country_code := "US" }]
    ports := [{ id := 1, server_id := 1, port := 8080, status_id := some 2 }]
    rentals := [sampleRental]
    tasks := [sampleTask]
    next_task_id := 2 }

/-- sampleDB with the proxies table emptied, so that the join of
resolveTaskData yields no row for the rental. -/
def sampleDBNoProxy : DB := { sampleDB with proxies := [] }

/-- A failure environment in which nothing raises and every poll sees a task
that no longer answers (None). -/
def envAllOk : FailureEnv :=
  { select_fails := false, enqueue_fails := false, wait_fails := false,
    polls := fun _ => none, cleanup_fails := false, forced_cleanup_fails := false }

/-- A failure environment whose join select raises a database error. -/
def envSelectFail : FailureEnv := { envAllOk with select_fails := true }

/-- A poll trace in which the second poll observes done and every other poll
observes pending. -/
def pollsDoneAtOne : Nat → Option TaskStatusEnum :=
  fun k => if k = 1 then some .done else some .pending

lemma lt_numPolls_iff {timeout interval k : Nat} (h : 0 < interval) :
    k < numPolls timeout interval ↔ k * interval < timeout := by
  unfold numPolls
  rw [Nat.lt_iff_add_one_le, Nat.le_div_iff_mul_le h, Nat.succ_mul]
  omega

lemma runPolls_shift (f : Nat → Option TaskStatusEnum) (k n : Nat)
    (hfk : f k ≠ some .done ∧ f k ≠ some .error)
    (ih : runPolls f (k + 1) n = true ↔
      ∃ m, m < n ∧ f (k + 1 + m) = some .done ∧
        ∀ j, j < m → f (k + 1 + j) ≠ some .done ∧ f (k + 1 + j) ≠ some .error) :
    runPolls f (k + 1) n = true ↔
      ∃ m, m < n + 1 ∧ f (k + m) = some .done ∧
        ∀ j, j < m → f (k + j) ≠ some .done ∧ f (k + j) ≠ some .error := by
  rw [ih]
  constructor
  · rintro ⟨m, hm, hd, hp⟩
    refine ⟨m + 1, by omega, by rwa [show k + (m + 1) = k + 1 + m by omega], ?_⟩
    intro j hj
    cases j with
    | zero => simpa using hfk
    | succ j =>
      rw [show k + (j + 1) = k + 1 + j by omega]
      exact hp j (by omega)
  · rintro ⟨m, hm, hd, hp⟩
    cases m with
    | zero => exact absurd (by simpa using hd) hfk.1
    | succ m =>
      refine ⟨m, by omega, by rwa [show k + 1 + m = k + (m + 1) by omega], ?_⟩
      intro j hj
      rw [show k + 1 + j = k + (j + 1) by omega]
      exact hp (j + 1) (by omega)

lemma runPolls_eq_true_iff (f : Nat → Option TaskStatusEnum) :
    ∀ n k, runPolls f k n = true ↔
      ∃ m, m < n ∧ f (k + m) = some .done ∧
        ∀ j, j < m → f (k + j) ≠ some .done ∧ f (k + j) ≠ some .error := by
  intro n
  induction n with
  | zero => intro k; simp [runPolls]
  | succ n ih =>
    intro k
    show (match f k with
      | some .done => true
      | some .error => false
      | _ => runPolls f (k + 1) n) = true ↔ _
    cases hfk : f k with
    | none => exact runPolls_shift f k n (by simp [hfk]) (ih (k + 1))
    | some st =>
      cases st with
      | pending => exact runPolls_shift f k n (by simp [hfk]) (ih (k + 1))
      | processing => exact runPolls_shift f k n (by simp [hfk]) (ih (k + 1))
      | done =>
        refine ⟨fun _ => ⟨0, by omega, by simpa using hfk,
          fun j hj => absurd hj (by omega)⟩, fun _ => rfl⟩
      | error =>
        constructor
        · intro hcontra; exact absurd hcontra (by simp)
        · rintro ⟨m, hm, hd, hp⟩
          exfalso
          cases m with
          | zero => rw [Nat.add_zero, hfk] at hd; exact absurd hd (by simp)
          | succ m => exact (hp 0 (by omega)).2 (by simpa using hfk)

lemma runPolls_eq_false_of_no_terminal (f : Nat → Option TaskStatusEnum)
    (n k : Nat)
    (h : ∀ m, m < n → f (k + m) ≠ some .done ∧ f (k + m) ≠ some .error) :
    runPolls f k n = false := by
  cases hb : runPolls f k n with
  | false => rfl
  | true =>
    obtain ⟨m, hm, hd, _⟩ := (runPolls_eq_true_iff f n k).mp hb
    exact absurd hd (h m hm).1

/-- Claim C2: wait_for_task_completion returns true exactly when one of its
polls observes done strictly before the timeout elapses; it returns false when
a poll observes error, and false when the timeout elapses with every poll
observing pending or processing (or no row). A poll at index k happens at
elapsed time k * interval, and only while that is strictly below timeout. -/
theorem wait_for_task_completion_trichotomy (f : Nat → Option TaskStatusEnum)
    (timeout interval : Nat) (h : 0 < interval) :
    (wait_for_task_completion f timeout interval = true ↔
      ∃ k, k * interval < timeout ∧ f k = some .done ∧
        ∀ j, j < k → f j ≠ some .done ∧ f j ≠ some .error)
  ∧ (∀ k, k * interval < timeout → f k = some .error →
      (∀ j, j < k → f j ≠ some .done ∧ f j ≠ some .error) →
      wait_for_task_completion f timeout interval = false)
  ∧ ((∀ k, k * interval < timeout → f k ≠ some .done ∧ f k ≠ some .error) →
      wait_for_task_completion f timeout interval = false) := by
  have hmain : wait_for_task_completion f timeout interval = true ↔
      ∃ k, k * interval < timeout ∧ f k = some .done ∧
        ∀ j, j < k → f j ≠ some .done ∧ f j ≠ some .error := by
    rw [wait_for_task_completion, runPolls_eq_true_iff]
    constructor
    · rintro ⟨m, hm, hd, hp⟩
      exact ⟨m, (lt_numPolls_iff h).mp hm, by simpa using hd,
        fun j hj => by simpa using hp j hj⟩
    · rintro ⟨m, hm, hd, hp⟩
      exact ⟨m, (lt_numPolls_iff h).mpr hm, by simpa using hd,
        fun j hj => by simpa using hp j hj⟩
  refine ⟨hmain, ?_, ?_⟩
  · intro k hk herr hpre
    cases hb : wait_for_task_completion f timeout interval with
    | false => rfl
    | true =>
      obtain ⟨m, hm, hd, hp⟩ := hmain.mp hb
      rcases Nat.lt_trichotomy m k with hlt | heq | hgt
      · exact absurd hd (hpre m hlt).1
      · subst heq; rw [herr] at hd; exact absurd hd (by simp)
      · exact absurd herr (hp k hgt).2
  · intro hall
    rw [wait_for_task_completion]
    exact runPolls_eq_false_of_no_terminal f _ 0
      (fun m hm => by simpa using hall m ((lt_numPolls_iff h).mp hm))

/-- Witness for C2: with a trace whose second poll observes done, a call with
timeout 5 and interval 2 returns true. -/
theorem wait_for_task_completion_trichotomy_witness :
    wait_for_task_completion pollsDoneAtOne 5 2 = true :=
  (wait_for_task_completion_trichotomy pollsDoneAtOne 5 2 (by decide)).1.mpr
    ⟨1, by decide, by decide, by
      intro j hj
      have hj0 : j = 0 := by omega
      subst hj0
      exact ⟨by decide, by decide⟩⟩

lemma applyStatusUpdate_status (t : ProxyTaskQueue) (s : TaskStatusEnum) (now : Int) :
    (applyStatusUpdate t s now).status = s := by
  unfold applyStatusUpdate update_proxy_task_updated_at
  split <;> rfl

lemma applyStatusUpdate_updated_at_of_pos (t : ProxyTaskQueue) (s : TaskStatusEnum)
    (now : Int) (h : s ≠ t.status ∧ (s = .done ∨ s = .error)) :
    (applyStatusUpdate t s now).updated_at = some now := by
  unfold applyStatusUpdate update_proxy_task_updated_at
  rw [if_pos h]

lemma applyStatusUpdate_updated_at_of_neg (t : ProxyTaskQueue) (s : TaskStatusEnum)
    (now : Int) (h : ¬(s ≠ t.status ∧ (s = .done ∨ s = .error))) :
    (applyStatusUpdate t s now).updated_at = t.updated_at := by
  unfold applyStatusUpdate update_proxy_task_updated_at
  rw [if_neg h]

lemma evolve_cons (t : ProxyTaskQueue) (s : TaskStatusEnum) (n : Int)
    (rest : List (TaskStatusEnum × Int)) :
    evolve t ((s, n) :: rest) = evolve (applyStatusUpdate t s n) rest := rfl

lemma evolve_append (t : ProxyTaskQueue) (l₁ l₂ : List (TaskStatusEnum × Int)) :
    evolve t (l₁ ++ l₂) = evolve (evolve t l₁) l₂ := by
  simp [evolve, List.foldl_append]

lemma noExitTerminal_eq (cur s : TaskStatusEnum)
    (ht : cur = .done ∨ cur = .error) (h : noExitTerminal cur s = true) :
    s = cur := by
  rcases ht with h1 | h1 <;> subst h1 <;> simpa [noExitTerminal] using h

lemma evolve_frozen_aux :
    ∀ (l : List (TaskStatusEnum × Int)) (row : ProxyTaskQueue) (x : Int),
      row.updated_at = some x → (row.status = .done ∨ row.status = .error) →
      validTrace row.status l = true →
      (evolve row l).updated_at = some x ∧
        ((evolve row l).status = .done ∨ (evolve row l).status = .error) := by
  intro l
  induction l with
  | nil => intro row x h ht _; exact ⟨h, ht⟩
  | cons u rest ih =>
    intro row x h ht hv
    obtain ⟨s, n⟩ := u
    rw [validTrace, Bool.and_eq_true] at hv
    have hs : s = row.status := noExitTerminal_eq row.status s ht hv.1
    have hnot : ¬(s ≠ row.status ∧ (s = .done ∨ s = .error)) := by
      intro hc; exact hc.1 hs
    rw [evolve_cons]
    have h1 : (applyStatusUpdate row s n).updated_at = some x := by
      rw [applyStatusUpdate_updated_at_of_neg row s n hnot]; exact h
    have h2 : (applyStatusUpdate row s n).status = .done ∨
        (applyStatusUpdate row s n).status = .error := by
      rw [applyStatusUpdate_status, hs]; exact ht
    have h3 : validTrace (applyStatusUpdate row s n).status rest = true := by
      rw [applyStatusUpdate_status]; exact hv.2
    exact ih (applyStatusUpdate row s n) x h1 h2 h3

lemma evolve_inv_aux :
    ∀ (l : List (TaskStatusEnum × Int)) (row : ProxyTaskQueue),
      (row.updated_at ≠ none → (row.status = .done ∨ row.status = .error)) →
      validTrace row.status l = true →
      ((evolve row l).updated_at ≠ none →
        ((evolve row l).status = .done ∨ (evolve row l).status = .error)) := by
  intro l
  induction l with
  | nil => intro row hinv _; exact hinv
  | cons u rest ih =>
    intro row hinv hv
    obtain ⟨s, n⟩ := u
    rw [validTrace, Bool.and_eq_true] at hv
    rw [evolve_cons]
    refine ih (applyStatusUpdate row s n) ?_ ?_
    · intro hne
      by_cases hc : s ≠ row.status ∧ (s = .done ∨ s = .error)
      · rw [applyStatusUpdate_status]; exact hc.2
      · rw [applyStatusUpdate_updated_at_of_neg row s n hc] at hne
        have ht := hinv hne
        have hs : s = row.status := noExitTerminal_eq row.status s ht hv.1
        rw [applyStatusUpdate_status, hs]; exact ht
    · rw [applyStatusUpdate_status]; exact hv.2

lemma validTrace_append :
    ∀ (l₁ l₂ : List (TaskStatusEnum × Int)) (row : ProxyTaskQueue),
      validTrace row.status (l₁ ++ l₂) = true →
      validTrace row.status l₁ = true ∧
        validTrace (evolve row l₁).status l₂ = true := by
  intro l₁
  induction l₁ with
  | nil => intro l₂ row h; exact ⟨rfl, by simpa [evolve] using h⟩
  | cons u rest ih =>
    intro l₂ row h
    obtain ⟨s, n⟩ := u
    rw [List.cons_append, validTrace, Bool.and_eq_true] at h
    have hs : (applyStatusUpdate row s n).status = s := applyStatusUpdate_status row s n
    have := ih l₂ (applyStatusUpdate row s n) (by rw [hs]; exact h.2)
    refine ⟨?_, by rw [evolve_cons]; exact this.2⟩
    rw [validTrace, Bool.and_eq_true]
    exact ⟨h.1, by rw [← hs]; exact this.1⟩

/-- Claim C3: the BEFORE UPDATE trigger stamps updated_at with now() exactly
when the new status differs from the old and is terminal (done or error);
any other update, transitions into processing included, leaves updated_at as
it was; and for a freshly inserted task (updated_at NULL) evolving under a
worker that never transitions out of a terminal status, once updated_at has
been set to a value it still has that value after any further valid updates. -/
theorem updated_at_terminal_stamping (t t0 : ProxyTaskQueue) (s : TaskStatusEnum)
    (now x : Int) (l₁ l₂ : List (TaskStatusEnum × Int)) :
    ((s ≠ t.status ∧ (s = .done ∨ s = .error)) →
      (applyStatusUpdate t s now).updated_at = some now)
  ∧ (¬(s ≠ t.status ∧ (s = .done ∨ s = .error)) →
      (applyStatusUpdate t s now).updated_at = t.updated_at)
  ∧ (t0.updated_at = none → validTrace t0.status (l₁ ++ l₂) = true →
      (evolve t0 l₁).updated_at = some x →
      (evolve t0 (l₁ ++ l₂)).updated_at = some x) := by
  refine ⟨applyStatusUpdate_updated_at_of_pos t s now,
    applyStatusUpdate_updated_at_of_neg t s now, ?_⟩
  intro h0 hv h1
  obtain ⟨hv1, hv2⟩ := validTrace_append l₁ l₂ t0 hv
  have hterm : (evolve t0 l₁).status = .done ∨ (evolve t0 l₁).status = .error := by
    refine evolve_inv_aux l₁ t0 (fun hne => absurd h0 hne) hv1 ?_
    rw [h1]; simp
  rw [evolve_append]
  exact (evolve_frozen_aux l₂ (evolve t0 l₁) x h1 hterm hv2).1

/-- Witness for C3: a pending task stamped at its first transition to done
keeps updated_at = 5 through a later (identity) done update. -/
theorem updated_at_terminal_stamping_witness :
    (evolve sampleTask ([(.done, 5)] ++ [(.done, 7)])).updated_at = some 5 :=
  (updated_at_terminal_stamping sampleTask sampleTask .processing 0 5
    [(.done, 5)] [(.done, 7)]).2.2 rfl (by decide) (by decide)

lemma cleanupRental_rentals_eq (db : DB) (r : ProxyRental) :
    (cleanupRental db r).rentals =
      db.rentals.filter (fun rr => !(rr.id == r.id)) := rfl

lemma cleanupRental_proxies_eq (db : DB) (r : ProxyRental) :
    (cleanupRental db r).proxies = db.proxies.map
      (fun p => if p.id == r.proxy_id then { p with status_id := some 1 } else p) := rfl

lemma cleanupRental_ports_eq (db : DB) (r : ProxyRental) :
    (cleanupRental db r).ports = db.ports.map
      (fun p => if p.id == r.port_id then { p with status_id := some 1 } else p) := rfl

lemma cleanupRental_props (db : DB) (r : ProxyRental) :
    (∀ rr ∈ (cleanupRental db r).rentals, rr.id ≠ r.id)
  ∧ (∀ p ∈ (cleanupRental db r).proxies, p.id = r.proxy_id → p.status_id = some 1)
  ∧ (∀ pp ∈ (cleanupRental db r).ports, pp.id = r.port_id → pp.status_id = some 1) := by
  refine ⟨?_, ?_, ?_⟩
  · rw [cleanupRental_rentals_eq]
    intro rr hrr
    rw [List.mem_filter] at hrr
    simpa using hrr.2
  · rw [cleanupRental_proxies_eq]
    intro p hp
    rw [List.mem_map] at hp
    obtain ⟨q, _, rfl⟩ := hp
    cases hqe : (q.id == r.proxy_id) with
    | true => simp [hqe]
    | false =>
      intro hid
      exact absurd hid (by simpa using hqe)
  · rw [cleanupRental_ports_eq]
    intro pp hpp
    rw [List.mem_map] at hpp
    obtain ⟨q, _, rfl⟩ := hpp
    cases hqe : (q.id == r.port_id) with
    | true => simp [hqe]
    | false =>
      intro hid
      exact absurd hid (by simpa using hqe)

/-- Claim C1: for an expired rental for which the remove_proxy task was
enqueued (the join resolves, the select and the enqueue do not raise), the
per-rental handler always ends with the rental row deleted and the proxy and
port statuses set to Available (status id 1), whatever statuses the polls of
wait_for_task_completion observe — done, error, or pending until timeout —
and even if the poll or the primary cleanup transaction raises, as long as
the forced cleanup transaction itself does not fail. -/
theorem expired_rental_cleanup_regardless_of_wait (e : FailureEnv) (db : DB)
    (r : ProxyRental) (now : Int)
    (hres : (resolveTaskData db r.proxy_id r.port_id).isSome = true)
    (hs : e.select_fails = false) (he : e.enqueue_fails = false)
    (hf : e.forced_cleanup_fails = false) :
    ∃ db', processRentalE e db r now = .ok db'
      ∧ (∀ rr ∈ db'.rentals, rr.id ≠ r.id)
      ∧ (∀ p ∈ db'.proxies, p.id = r.proxy_id → p.status_id = some 1)
      ∧ (∀ pp ∈ db'.ports, pp.id = r.port_id → pp.status_id = some 1) := by
  obtain ⟨d, hd⟩ := Option.isSome_iff_exists.mp hres
  have haddok : ∃ pr, add_task_to_queue db r.proxy_id r.port_id r.login
      r.password "remove_proxy" now = .ok pr := by
    unfold add_task_to_queue
    rw [hd]
    exact ⟨_, rfl⟩
  obtain ⟨⟨db1, tid⟩, hadd⟩ := haddok
  cases hw : e.wait_fails with
  | false =>
    cases hc : e.cleanup_fails with
    | false =>
      refine ⟨cleanupRental db1 r, ?_, cleanupRental_props db1 r⟩
      simp [processRentalE, processRentalTry, hs, he, hw, hc, hd, hadd]
    | true =>
      refine ⟨cleanupRental ((update_port_status
          ((update_proxy_status db1 r.proxy_id "Available").1)
          r.port_id "Available").1) r, ?_, cleanupRental_props _ r⟩
      simp [processRentalE, processRentalTry, forcedCleanup, hf, hs, he, hw, hc,
        hd, hadd]
  | true =>
    refine ⟨cleanupRental db1 r, ?_, cleanupRental_props db1 r⟩
    simp [processRentalE, processRentalTry, forcedCleanup, hf, hs, he, hw, hd,
      hadd]

/-- Witness for C1: with the concrete database, the handler deletes the
rental and frees proxy and port while every poll observes a missing task. -/
theorem expired_rental_cleanup_regardless_of_wait_witness :
    ∃ db', processRentalE envAllOk sampleDB sampleRental 0 = .ok db'
      ∧ (∀ rr ∈ db'.rentals, rr.id ≠ sampleRental.id)
      ∧ (∀ p ∈ db'.proxies, p.id = sampleRental.proxy_id → p.status_id = some 1)
      ∧ (∀ pp ∈ db'.ports, pp.id = sampleRental.port_id → pp.status_id = some 1) :=
  expired_rental_cleanup_regardless_of_wait envAllOk sampleDB sampleRental 0
    (by decide) rfl rfl rfl

/-- Claim C10: for a status name no ProxyStatus member matches,
update_proxy_status returns None and writes nothing, while update_port_status
has no such guard: it returns a non-None rowcount answer and its UPDATE sets
the status_id of the matching port rows to NULL. -/
theorem port_status_update_not_guarded (db : DB) (proxy_id port_id : Nat)
    (status : String) (h : get_status_id status = none) :
    update_proxy_status db proxy_id status = (db, none)
  ∧ (update_port_status db port_id status).2 ≠ none
  ∧ (∀ pp ∈ (update_port_status db port_id status).1.ports,
      pp.id = port_id → pp.status_id = none) := by
  refine ⟨?_, ?_, ?_⟩
  · unfold update_proxy_status
    rw [h]
  · unfold update_port_status
    simp
  · unfold update_port_status
    intro pp hpp
    rw [List.mem_map] at hpp
    obtain ⟨q, _, rfl⟩ := hpp
    cases hqe : (q.id == port_id) with
    | true => simp [hqe, h]
    | false =>
      intro hid
      exact absurd hid (by simpa using hqe)

/-- Witness for C10: with the unknown status name Frozen, the proxy updater
returns None and leaves the database alone, while the port updater answers
with a rowcount and nulls the status of port 1. -/
theorem port_status_update_not_guarded_witness :
    update_proxy_status sampleDB 1 "Frozen" = (sampleDB, none)
  ∧ (update_port_status sampleDB 1 "Frozen").2 ≠ none := by
  have h := port_status_update_not_guarded sampleDB 1 1 "Frozen" (by decide)
  exact ⟨h.1, h.2.1⟩

lemma runCommits_full (db : DB) (r : ProxyRental) :
    runCommits db (cleanupCommits r) 3 = cleanupRental db r := rfl

/-- Claim C4 is false of the code: the cleanup step is not one transaction.
update_proxy_status and update_port_status each commit in their own session,
so stopping after the first commit unit leaves a surviving intermediate
state: proxy 1 already Available (status id 1) while port 1 is still Rented
(status id 2) and the rental row still exists — neither none nor all of the
three writes. -/
theorem cleanup_not_atomic_intermediate_state :
    runCommits sampleDB (cleanupCommits sampleRental) 1 ≠ sampleDB
  ∧ runCommits sampleDB (cleanupCommits sampleRental) 1 ≠
      runCommits sampleDB (cleanupCommits sampleRental) 3
  ∧ (∀ p ∈ (runCommits sampleDB (cleanupCommits sampleRental) 1).proxies,
      p.id = sampleRental.proxy_id → p.status_id = some 1)
  ∧ (∀ pp ∈ (runCommits sampleDB (cleanupCommits sampleRental) 1).ports,
      pp.id = sampleRental.port_id → pp.status_id = some 2)
  ∧ sampleRental ∈ (runCommits sampleDB (cleanupCommits sampleRental) 1).rentals := by
  decide

/-- Claim C5 is false of the code: with an expired rental whose join data
cannot be resolved (the proxies table holds no row for it), one reclamation
cycle completes without touching the database — the rental row is still
present and the port is still Rented, not Available. The handler hits the
"No data found" branch, which logs and continues without any cleanup. -/
theorem expired_rental_kept_on_lookup_failure_cex :
    clean_expired_proxy_rentals_cycle (fun _ => envAllOk) sampleDBNoProxy 1 =
      .ok sampleDBNoProxy
  ∧ sampleRental ∈ sampleDBNoProxy.rentals
  ∧ sampleRental.expire_date ≤ 1
  ∧ resolveTaskData sampleDBNoProxy sampleRental.proxy_id sampleRental.port_id = none
  ∧ (∀ pp ∈ sampleDBNoProxy.ports, pp.id = sampleRental.port_id →
      pp.status_id ≠ some 1) := by
  decide

/-- Claim C5 amended: when the join-data resolution of an expired rental
yields no row (and the select itself does not raise), the cycle skips that
rental entirely — the database is unchanged, so the rental row is still
present and the proxy/port statuses keep their old values; the rental is
retried on the next cycle since it is still expired. -/
theorem lookup_failure_skips_rental (env : Nat → FailureEnv) (db : DB)
    (r : ProxyRental) (now : Int)
    (hr : db.rentals = [r]) (hexp : r.expire_date ≤ now)
    (hres : resolveTaskData db r.proxy_id r.port_id = none)
    (hsel : (env r.id).select_fails = false) :
    clean_expired_proxy_rentals_cycle env db now = .ok db ∧ r ∈ db.rentals := by
  constructor
  · unfold clean_expired_proxy_rentals_cycle
    rw [hr]
    have hfil : List.filter (fun rr => decide (rr.expire_date ≤ now)) [r] = [r] := by
      simp [hexp]
    rw [hfil]
    simp [runCycle, processRentalE, processRentalTry, hsel, hres]
  · rw [hr]
    exact List.mem_singleton.mpr rfl

/-- Witness for the amended C5 at the concrete database. -/
theorem lookup_failure_skips_rental_witness :
    clean_expired_proxy_rentals_cycle (fun _ => envAllOk) sampleDBNoProxy 1 =
      .ok sampleDBNoProxy ∧ sampleRental ∈ sampleDBNoProxy.rentals :=
  lookup_failure_skips_rental (fun _ => envAllOk) sampleDBNoProxy sampleRental 1
    rfl (by decide) (by decide) rfl

/-- Claim C6: add_task_to_queue fails with the lookup error and inserts
nothing when the join resolves to no row (an error result carries no
database, so no partial or empty task is created), and on success inserts
exactly one new task row, with status pending, created_at = now, updated_at
NULL and the fresh id, which it returns. -/
theorem add_task_to_queue_no_partial_insert (db : DB) (proxy_id port_id : Nat)
    (login password task_type : String) (now : Int) :
    (resolveTaskData db proxy_id port_id = none →
      add_task_to_queue db proxy_id port_id login password task_type now =
        .error "Could not find data for the task")
  ∧ (∀ data, resolveTaskData db proxy_id port_id = some data →
      ∃ task : ProxyTaskQueue,
        add_task_to_queue db proxy_id port_id login password task_type now =
          .ok ({ db with tasks := db.tasks ++ [task], next_task_id := db.next_task_id + 1 }, db.next_task_id)
        ∧ task.status = .pending ∧ task.id = db.next_task_id
        ∧ task.created_at = now ∧ task.updated_at = none) := by
  constructor
  · intro h
    unfold add_task_to_queue
    rw [h]
  · intro data h
    unfold add_task_to_queue
    rw [h]
    exact ⟨_, rfl, rfl, rfl, rfl, rfl⟩

/-- Witness for C6: enqueuing against the concrete database inserts a pending
remove_proxy task with id 2. -/
theorem add_task_to_queue_no_partial_insert_witness :
    ∃ task : ProxyTaskQueue,
      add_task_to_queue sampleDB 1 1 "abc" "xyz" "remove_proxy" 1 =
        .ok ({ sampleDB with tasks := sampleDB.tasks ++ [task], next_task_id := sampleDB.next_task_id + 1 }, sampleDB.next_task_id)
      ∧ task.status = .pending ∧ task.id = sampleDB.next_task_id
      ∧ task.created_at = 1 ∧ task.updated_at = none :=
  (add_task_to_queue_no_partial_insert sampleDB 1 1 "abc" "xyz" "remove_proxy" 1).2
    { server_ip := "1.2.3.4", internal_ip := some "10.0.0.1", port := 8080,
      protocol := "SOCKS5", operator := "TESTCO" } (by decide)

lemma processRentalE_total (e : FailureEnv) (d : DB) (r : ProxyRental) (now : Int) :
    ∃ d', processRentalE e d r now = .ok d' := by
  cases htry : processRentalTry e d r now with
  | ok d1 => exact ⟨d1, by simp [processRentalE, htry]⟩
  | error p =>
    obtain ⟨ex, d1⟩ := p
    cases hfc : forcedCleanup e d1 r with
    | ok d2 => exact ⟨d2, by simp [processRentalE, htry, hfc]⟩
    | error q =>
      obtain ⟨ex2, d2⟩ := q
      exact ⟨d2, by simp [processRentalE, htry, hfc]⟩

lemma runCycle_ok (env : Nat → FailureEnv) (now : Int) :
    ∀ (rs : List ProxyRental) (db : DB), ∃ db', runCycle env now db rs = .ok db' := by
  intro rs
  induction rs with
  | nil => intro db; exact ⟨db, rfl⟩
  | cons r rest ih =>
    intro db
    obtain ⟨d1, h1⟩ := processRentalE_total (env r.id) db r now
    obtain ⟨d2, h2⟩ := ih d1
    exact ⟨d2, by simp [runCycle, h1, h2]⟩

/-- Claim C7: whatever raises inside the per-rental handler, the handler
itself always returns normally (the except branch catches everything and the
nested try catches the forced cleanup failure), so one cycle always processes
its whole snapshot of expired rentals; and whenever the try block does raise
while the forced cleanup transaction does not fail, the handler performs the
forced cleanup, ending with the rental deleted and proxy and port set to
Available. -/
theorem reclamation_loop_never_halts (env : Nat → FailureEnv) (db : DB) (now : Int) :
    (∀ (e : FailureEnv) (d : DB) (r : ProxyRental),
      ∃ d', processRentalE e d r now = .ok d')
  ∧ (∃ db', clean_expired_proxy_rentals_cycle env db now = .ok db')
  ∧ (∀ (e : FailureEnv) (d : DB) (r : ProxyRental) (ex : Exn) (de : DB),
      processRentalTry e d r now = .error (ex, de) →
      e.forced_cleanup_fails = false →
      processRentalE e d r now = .ok (cleanupRental de r)
      ∧ (∀ rr ∈ (cleanupRental de r).rentals, rr.id ≠ r.id)
      ∧ (∀ p ∈ (cleanupRental de r).proxies, p.id = r.proxy_id →
          p.status_id = some 1)
      ∧ (∀ pp ∈ (cleanupRental de r).ports, pp.id = r.port_id →
          pp.status_id = some 1)) := by
  refine ⟨fun e d r => processRentalE_total e d r now, ?_, ?_⟩
  · unfold clean_expired_proxy_rentals_cycle
    exact runCycle_ok env now _ db
  · intro e d r ex de htry hf
    refine ⟨?_, cleanupRental_props de r⟩
    simp [processRentalE, htry, forcedCleanup, hf]

/-- Witness for C7: a raising join select still ends with the forced cleanup
applied to the concrete database. -/
theorem reclamation_loop_never_halts_witness :
    processRentalE envSelectFail sampleDB sampleRental 0 =
      .ok (cleanupRental sampleDB sampleRental)
  ∧ (∀ rr ∈ (cleanupRental sampleDB sampleRental).rentals,
      rr.id ≠ sampleRental.id)
  ∧ (∀ p ∈ (cleanupRental sampleDB sampleRental).proxies,
      p.id = sampleRental.proxy_id → p.status_id = some 1)
  ∧ (∀ pp ∈ (cleanupRental sampleDB sampleRental).ports,
      pp.id = sampleRental.port_id → pp.status_id = some 1) :=
  (reclamation_loop_never_halts (fun _ => envSelectFail) sampleDB 0).2.2
    envSelectFail sampleDB sampleRental (.dbError "select failed") sampleDB
    (by decide) rfl

/-- Claim C8: delete_tasks_by_status removes exactly the tasks whose status
equals the argument — afterwards no task in that status remains, every task
in a different status survives, nothing outside the tasks table changes —
and returns the matched count and the deleted rowcount, both equal to the
number of matching tasks before deletion. -/
theorem delete_tasks_by_status_frame (db : DB) (s : TaskStatusEnum) :
    (∀ t ∈ (delete_tasks_by_status db s).1.tasks, t.status ≠ s)
  ∧ (∀ t ∈ db.tasks, t.status ≠ s → t ∈ (delete_tasks_by_status db s).1.tasks)
  ∧ (∀ t ∈ (delete_tasks_by_status db s).1.tasks, t ∈ db.tasks)
  ∧ (delete_tasks_by_status db s).1.rentals = db.rentals
  ∧ (delete_tasks_by_status db s).1.proxies = db.proxies
  ∧ (delete_tasks_by_status db s).1.ports = db.ports
  ∧ (delete_tasks_by_status db s).2 =
      ((db.tasks.filter (fun t => t.status == s)).length,
       (db.tasks.filter (fun t => t.status == s)).length) := by
  by_cases h0 : (db.tasks.filter (fun t => t.status == s)).length = 0
  · have hall : ∀ t ∈ db.tasks, ¬(t.status == s) = true :=
      List.filter_eq_nil_iff.mp (List.length_eq_zero.mp h0)
    have hres : delete_tasks_by_status db s = (db, (0, 0)) := by
      unfold delete_tasks_by_status
      rw [if_pos h0]
    rw [hres, h0]
    exact ⟨fun t ht => by simpa using hall t ht,
      fun t ht _ => ht, fun t ht => ht, rfl, rfl, rfl, rfl⟩
  · have hres : delete_tasks_by_status db s =
        ({ db with tasks := db.tasks.filter (fun t => !(t.status == s)) },
         ((db.tasks.filter (fun t => t.status == s)).length,
          (db.tasks.filter (fun t => t.status == s)).length)) := by
      unfold delete_tasks_by_status
      rw [if_neg h0]
    rw [hres]
    refine ⟨?_, ?_, ?_, rfl, rfl, rfl, rfl⟩
    · intro t ht
      rw [List.mem_filter] at ht
      simpa using ht.2
    · intro t ht hne
      rw [List.mem_filter]
      exact ⟨ht, by simpa using hne⟩
    · intro t ht
      exact (List.mem_filter.mp ht).1

/-- Witness for C8: clearing the pending queue of the concrete database
reports one matched and one deleted task. -/
theorem delete_tasks_by_status_frame_witness :
    (delete_tasks_by_status sampleDB .pending).2 =
      ((sampleDB.tasks.filter (fun t => t.status == .pending)).length,
       (sampleDB.tasks.filter (fun t => t.status == .pending)).length) :=
  (delete_tasks_by_status_frame sampleDB .pending).2.2.2.2.2.2

/-- Claim C9: a task_id that refers to no task makes get_task_status answer
None on every poll; the wait loop treats None exactly like pending or
processing, so wait_for_task_completion never raises, polls through the full
timeout and returns false. -/
theorem missing_task_polls_to_timeout (dbs : Nat → DB)
    (task_id timeout interval : Nat) (_hi : 0 < interval)
    (h : ∀ k, ∀ t ∈ (dbs k).tasks, t.id ≠ task_id) :
    (∀ k, get_task_status (dbs k) task_id = none)
  ∧ wait_for_task_completion (fun k => get_task_status (dbs k) task_id)
      timeout interval = false
  ∧ wait_for_task_completion (fun k => get_task_status (dbs k) task_id)
      timeout interval
    = wait_for_task_completion (fun _ => some TaskStatusEnum.pending)
        timeout interval := by
  have hnone : ∀ k, get_task_status (dbs k) task_id = none := by
    intro k
    unfold get_task_status
    rw [List.find?_eq_none.mpr (fun t ht => by simpa using h k t ht)]
    rfl
  refine ⟨hnone, ?_, ?_⟩
  · unfold wait_for_task_completion
    exact runPolls_eq_false_of_no_terminal _ _ 0 (fun m _ => by simp [hnone])
  · unfold wait_for_task_completion
    rw [runPolls_eq_false_of_no_terminal _ _ 0 (fun m _ => by simp [hnone]),
      runPolls_eq_false_of_no_terminal _ _ 0 (fun m _ => by simp)]

/-- Witness for C9: waiting two seconds at one-second polls on an id no task
of the concrete database has returns false. -/
theorem missing_task_polls_to_timeout_witness :
    wait_for_task_completion
      (fun k => get_task_status ((fun _ => sampleDB) k) 99) 2 1 = false :=
  (missing_task_polls_to_timeout (fun _ => sampleDB) 99 2 1 (by decide)
    (fun _ => by
      show ∀ t ∈ sampleDB.tasks, t.id ≠ 99
      decide)).2.1

end DiplomLR
